import Mathlib

/-!
Verification of the batch-accumulation and lifecycle controller ("Batcher")
of the Retriever-FastAPI repository, embedded shallowly from
`src/genai/analyzers/post.py` and `src/tasks/pipeline/poll_gemini.py`.

Machine integers are modelled as `Nat` (SQLite integer columns never
overflow in the modelled ranges), Python `None` as `Option`, the SQLite
tables `gemini_batch_jobs` / `gemini_requests` and the MongoDB `posts`
collection as Lean lists of records, and the Gemini provider as an
explicit function parameter.
-/

namespace Retriever

/-! JSON values.

Values produced by Python `json.loads`, as a mutual inductive so that all
recursion over them is structural and kernel-reducible.  Numbers are
restricted to integers, which covers every payload this development
evaluates; none of the analysed code depends on fractional numbers. -/

mutual
inductive Json where
  | null : Json
  | bool (b : Bool) : Json
  | num (n : Int) : Json
  | str (s : String) : Json
  | arr (elems : JsonList) : Json
  | obj (fields : JsonFields) : Json

inductive JsonList where
  | nil : JsonList
  | cons (hd : Json) (tl : JsonList) : JsonList

inductive JsonFields where
  | nil : JsonFields
  | cons (k : String) (v : Json) (tl : JsonFields) : JsonFields
end

instance : Inhabited Json := ⟨Json.null⟩

/-- Lookup of a key in a JSON object, Python `dict.get` on parse results
(duplicate keys do not arise in the modelled inputs). -/
def Json.lookup : JsonFields → String → Option Json
  | .nil, _ => none
  | .cons k v tl, key => if k = key then some v else Json.lookup tl key

/-- Python truthiness of a JSON value (`if response:`, `x or y`). -/
def Json.truthy : Json → Bool
  | .null => false
  | .bool b => b
  | .num n => n != 0
  | .str s => s != ""
  | .arr .nil => false
  | .arr _ => true
  | .obj .nil => false
  | .obj _ => true

/-- Conversion of the mutual list constructor to an ordinary list. -/
def JsonList.toList : JsonList → List Json
  | .nil => []
  | .cons h t => h :: JsonList.toList t

/-- Conversion of the mutual fields constructor to an ordinary list. -/
def JsonFields.toList : JsonFields → List (String × Json)
  | .nil => []
  | .cons k v t => (k, v) :: JsonFields.toList t

/-! A small model of `json.loads` and `json.dumps`.

Fuel-based so the kernel can evaluate them.  The modelled grammar is the
fragment exercised by the Batcher's result files: objects, arrays,
strings with the escapes `\" \\ \/ \n \t \r`, integers, `true`, `false`,
`null`.  `json.dumps` uses Python's default separators and performs no
escaping (the dumped error objects in the modelled inputs contain no
special characters). -/

def jsonWs (c : Char) : Bool := c = ' ' || c = '\n' || c = '\t' || c = '\r'

def skipWs : List Char → List Char
  | c :: cs => if jsonWs c then skipWs cs else c :: cs
  | [] => []

def parseStrAux : List Char → List Char → Option (String × List Char)
  | [], _ => none
  | '"' :: rest, acc => some (String.mk acc.reverse, rest)
  | '\\' :: e :: rest, acc =>
    if e = '"' then parseStrAux rest ('"' :: acc)
    else if e = '\\' then parseStrAux rest ('\\' :: acc)
    else if e = '/' then parseStrAux rest ('/' :: acc)
    else if e = 'n' then parseStrAux rest ('\n' :: acc)
    else if e = 't' then parseStrAux rest ('\t' :: acc)
    else if e = 'r' then parseStrAux rest ('\r' :: acc)
    else none
  | c :: rest, acc => parseStrAux rest (c :: acc)

def parseDigits : List Char → Nat → Nat × List Char
  | c :: cs, acc => if c.isDigit then parseDigits cs (acc * 10 + (c.toNat - 48)) else (acc, c :: cs)
  | [], acc => (acc, [])

/-- Parser modes: a value, the tail of an array, the tail of an object. -/
inductive PMode where
  | val : PMode
  | elems : PMode
  | fields : PMode

def parseCore : Nat → PMode → List Char → Option (Json × List Char)
  | 0, _, _ => none
  | fuel + 1, .val, cs =>
    match skipWs cs with
    | 'n' :: 'u' :: 'l' :: 'l' :: rest => some (.null, rest)
    | 't' :: 'r' :: 'u' :: 'e' :: rest => some (.bool true, rest)
    | 'f' :: 'a' :: 'l' :: 's' :: 'e' :: rest => some (.bool false, rest)
    | '"' :: rest => (parseStrAux rest []).map (fun p => (.str p.1, p.2))
    | '[' :: rest =>
      (match skipWs rest with
       | ']' :: rest2 => some (.arr .nil, rest2)
       | rest2 => parseCore fuel .elems rest2)
    | '\x7b' :: rest =>
      (match skipWs rest with
       | '\x7d' :: rest2 => some (.obj .nil, rest2)
       | rest2 => parseCore fuel .fields rest2)
    | '-' :: c :: rest =>
      if c.isDigit then
        (fun p => some ((.num (-(p.1 : Int)) : Json), p.2)) (parseDigits (c :: rest) 0)
      else none
    | c :: rest =>
      if c.isDigit then
        (fun p => some ((.num (p.1 : Int) : Json), p.2)) (parseDigits (c :: rest) 0)
      else none
    | [] => none
  | fuel + 1, .elems, cs =>
    match parseCore fuel .val cs with
    | some (v, rest) =>
      (match skipWs rest with
       | ',' :: rest2 =>
         (match parseCore fuel .elems rest2 with
          | some (.arr vs, r) => some (.arr (.cons v vs), r)
          | _ => none)
       | ']' :: rest2 => some (.arr (.cons v .nil), rest2)
       | _ => none)
    | none => none
  | fuel + 1, .fields, cs =>
    match skipWs cs with
    | '"' :: rest =>
      (match parseStrAux rest [] with
       | some (k, r1) =>
         (match skipWs r1 with
          | ':' :: r2 =>
            (match parseCore fuel .val r2 with
             | some (v, r3) =>
               (match skipWs r3 with
                | ',' :: r4 =>
                  (match parseCore fuel .fields r4 with
                   | some (.obj kvs, r5) => some (.obj (.cons k v kvs), r5)
                   | _ => none)
                | '\x7d' :: r4 => some (.obj (.cons k v .nil), r4)
                | _ => none)
             | none => none)
          | _ => none)
       | none => none)
    | _ => none

/-- Python `json.loads` on a character list: a single value, then only
trailing whitespace. -/
def jsonLoadsCh (cs : List Char) : Option Json :=
  match parseCore (cs.length + 2) .val cs with
  | some (v, rest) => if (skipWs rest).isEmpty then some v else none
  | none => none

/-- Python `json.loads` on a string. -/
def jsonLoads (s : String) : Option Json :=
  jsonLoadsCh s.data

/-- Python `json.dumps` (default separators, `ensure_ascii=False`); fuel
bounds the nesting depth. -/
def dumpVal : Nat → Json → String
  | 0, _ => ""
  | fuel + 1, v =>
    match v with
    | .null => "null"
    | .bool true => "true"
    | .bool false => "false"
    | .num n => toString n
    | .str s => "\"" ++ s ++ "\""
    | .arr xs => "[" ++ String.intercalate ", " (xs.toList.map (dumpVal fuel)) ++ "]"
    | .obj kvs =>
      "\x7b" ++
        String.intercalate ", "
          (kvs.toList.map (fun kv => "\"" ++ kv.1 ++ "\": " ++ dumpVal fuel kv.2)) ++
      "\x7d"

/-! Data model.

`JobStatus`, the `gemini_batch_jobs` row, the `gemini_requests` row and
the MongoDB post document, from `src/genai/analyzers/post.py` lines
27-114 (only the columns the analysed operations read or write). -/

inductive JobStatus where
  | acceptingRequests : JobStatus
  | pending : JobStatus
  | submitted : JobStatus
  | processing : JobStatus
  | completed : JobStatus
  | failed : JobStatus
deriving DecidableEq

/-- A row of `gemini_batch_jobs`.  `name` is the provider handle returned
by the Gemini API (null before submission). -/
structure BatchJob where
  id : Nat
  name : Option String
  status : JobStatus
  file_size_bytes : Nat
  request_count : Nat
deriving DecidableEq

/-- A row of `gemini_requests`. -/
structure GeminiRequest where
  request_key : String
  batch_job_id : Nat
  post_title : String
  post_text : String
  post_link : String
  estimated_size_bytes : Nat
  is_processed : Bool
  result : Option String
deriving DecidableEq

/-- A document of the MongoDB `posts` collection, restricted to the
fields `process_completed_jobs` touches.  `text = none` models both an
absent field and an explicit null. -/
structure PostDoc where
  link : String
  text : Option String
  analysis : Option Json

/-- The incoming `Post` argument of `PostAnalyzer.register`
(`core/mongo/post.py`): `text` may be null. -/
structure PostIn where
  title : String
  text : Option String
  link : String

/-- The combined store state: the two SQLite tables, the `posts`
collection, and the autoincrement counter for `gemini_batch_jobs.id`. -/
structure AnalyzerState where
  jobs : List BatchJob
  requests : List GeminiRequest
  posts : List PostDoc
  nextJobId : Nat

/-- The 1 GiB size cap, `PostAnalyzer.MAX_FILE_SIZE_BYTES`
(post.py line 119). -/
def MAX_FILE_SIZE_BYTES : Nat := 1024 * 1024 * 1024

/-- The duplicate-detection key of post.py lines 240-241:
`request_key = f"request-\x7babs(hash(f"\x7bpost.title\x7d:\x7bpost.text\x7d"))\x7d"`.
Python's string hash is modelled as the identity embedding of the hashed
string; `register` depends only on the hash being a deterministic
function of `title` and `text` (a `None` text renders as `"None"`). -/
def requestKey (post : PostIn) : String :=
  "request-" ++ post.title ++ ":" ++ (match post.text with | some t => t | none => "None")

/-- The `status == ACCEPTING_REQUESTS` row predicate used by the
ACCEPTING_REQUESTS selects in post.py. -/
def isAccepting (j : BatchJob) : Bool := decide (j.status = .acceptingRequests)

/-- Update every job row matching an id, the effect of
`update(GeminiBatchJobs).where(GeminiBatchJobs.id == i)` (ids are unique
in every reachable state, so at most one row is hit). -/
def updateJobsById (jobs : List BatchJob) (i : Nat) (f : BatchJob → BatchJob) : List BatchJob :=
  jobs.map (fun j => if j.id = i then f j else j)

/-- `PostAnalyzer.register` (post.py lines 226-313).  The size estimate
computed by `_estimate_request_size` (lines 236-237) enters as the
`estimated_size` parameter, matching the `register(post_id,
estimated_request_size)` call in `tasks/pipeline/analyze.py` line 20.

Behaviour embedded line by line: the `is_accepting_requests` guard
(231-232) returns false when no ACCEPTING_REQUESTS job exists; the
duplicate check (243-248) returns true without touching any counter;
`scalar_one()` (255) raises unless exactly one ACCEPTING_REQUESTS row
exists, and the surrounding `except` (310-313) turns that into a rolled
back `false`; the cap check (258-276) flips the current job to PENDING
(regardless of its `request_count`) and creates a fresh zero-counter
job; the new request row and the counter bump (278-307) then target the
chosen job. -/
def register (st : AnalyzerState) (post : PostIn) (estimated_size : Nat) :
    Bool × AnalyzerState :=
  if st.jobs.any isAccepting then
    let key := requestKey post
    if st.requests.any (fun r => decide (r.request_key = key)) then
      (true, st)
    else
      match st.jobs.filter isAccepting with
      | [current] =>
        let rolled :=
          if MAX_FILE_SIZE_BYTES < current.file_size_bytes + estimated_size then
            let fresh : BatchJob :=
              { id := st.nextJobId, name := none, status := .acceptingRequests,
                file_size_bytes := 0, request_count := 0 }
            (fresh,
             updateJobsById st.jobs current.id (fun j => { j with status := .pending })
               ++ [fresh],
             st.nextJobId + 1)
          else
            (current, st.jobs, st.nextJobId)
        let target := rolled.1
        let newReq : GeminiRequest :=
          { request_key := key, batch_job_id := target.id,
            post_title := post.title, post_text := post.text.getD "",
            post_link := post.link, estimated_size_bytes := estimated_size,
            is_processed := false, result := none }
        let jobs2 :=
          updateJobsById rolled.2.1 target.id (fun j =>
            { j with file_size_bytes := target.file_size_bytes + estimated_size,
                     request_count := target.request_count + 1 })
        (true,
         { st with jobs := jobs2, requests := st.requests ++ [newReq],
                   nextJobId := rolled.2.2 })
      | _ => (false, st)
  else
    (false, st)

/-! Submitter, `PostAnalyzer.submit_batch` (post.py lines 315-423).
The Gemini upload plus batch creation is the parameter `provider`:
`provider j.id = some nm` means both provider calls succeeded and the
created batch is named `nm`; `none` means some provider call raised, the
branch that marks the job FAILED (lines 408-416). -/

/-- The selection of lines 321-333: status in (ACCEPTING_REQUESTS,
PENDING) and `request_count > 0`. -/
def submitSelect (j : BatchJob) : Bool :=
  (decide (j.status = .acceptingRequests) || decide (j.status = .pending)) &&
    decide (0 < j.request_count)

/-- The per-job request query of lines 344-350: rows of the job with
`is_processed == False`. -/
def unprocessedOf (reqs : List GeminiRequest) (jobId : Nat) : List GeminiRequest :=
  reqs.filter (fun r => decide (r.batch_job_id = jobId) && !r.is_processed)

/-- One iteration of the submit loop (lines 342-416) restricted to its
effect on the iterated job row: skipped when the job is not selected or
has no unprocessed requests; otherwise SUBMITTED with the provider name,
or FAILED when the provider raised. -/
def submitJob (reqs : List GeminiRequest) (provider : Nat → Option String)
    (j : BatchJob) : BatchJob :=
  if submitSelect j then
    if (unprocessedOf reqs j.id).isEmpty then j
    else
      match provider j.id with
      | some nm => { j with name := some nm, status := .submitted }
      | none => { j with status := .failed }
  else j

/-- `PostAnalyzer._ensure_accepting_requests_job` (post.py lines
151-182): create a fresh ACCEPTING_REQUESTS job when none exists; when
several exist keep the first and flip the rest to PENDING. -/
def ensureAcceptingJob (st : AnalyzerState) : AnalyzerState :=
  match st.jobs.filter isAccepting with
  | [] =>
    { st with
      jobs := st.jobs ++
        [({ id := st.nextJobId, name := none, status := .acceptingRequests,
            file_size_bytes := 0, request_count := 0 } : BatchJob)],
      nextJobId := st.nextJobId + 1 }
  | keep :: rest =>
    if rest.isEmpty then st
    else
      { st with
        jobs := st.jobs.map (fun j =>
          if isAccepting j && decide (j.id ≠ keep.id) then { j with status := .pending }
          else j) }

/-- `PostAnalyzer.submit_batch` (lines 315-423).  Returns the list of
submitted batch names (`None`, modelled as `none`, when nothing was
submitted) and the successor state.  When no job is selected the
function returns early (line 338) without running
`_ensure_accepting_requests_job`; otherwise the loop body only ever
updates the iterated job row, so its net effect is a map, followed by
the ensure step (line 421). -/
def submitBatch (st : AnalyzerState) (provider : Nat → Option String) :
    Option (List String) × AnalyzerState :=
  let selected := st.jobs.filter submitSelect
  if selected.isEmpty then (none, st)
  else
    let names := selected.filterMap (fun j =>
      if (unprocessedOf st.requests j.id).isEmpty then none else provider j.id)
    let st1 := ensureAcceptingJob
      { st with jobs := st.jobs.map (submitJob st.requests provider) }
    (if names.isEmpty then none else some names, st1)

/-! Poller, `PostAnalyzer.check_batch_status` (post.py lines 425-482).
`client.batches.get(job.name)` is the parameter `batchGet`: an
`Except.error` is a raised provider exception (caught at lines 474-475,
leaving the job untouched); `BatchInfo.state` is
`getattr(batch_info, "state", None)`. -/

structure BatchInfo where
  state : Option String

/-- The state mapping of lines 451-457: provider "COMPLETED" makes the
job COMPLETED, "FAILED" or "CANCELLED" makes it FAILED, "RUNNING" makes
it PROCESSING, and every other value (including a missing `state`
attribute) maps to no change. -/
def pollNewStatus (s : Option String) : Option JobStatus :=
  if s = some "COMPLETED" then some .completed
  else if s = some "FAILED" || s = some "CANCELLED" then some .failed
  else if s = some "RUNNING" then some .processing
  else none

/-- One iteration of the poll loop (lines 447-475) restricted to its
effect on the iterated job row; identity on rows the select of lines
428-439 does not return. -/
def pollJob (batchGet : String → Except Unit BatchInfo) (j : BatchJob) : BatchJob :=
  if decide (j.status = .submitted) || decide (j.status = .processing) then
    match j.name with
    | some nm =>
      match batchGet nm with
      | .error _ => j
      | .ok info =>
        match pollNewStatus info.state with
        | some s => if decide (s ≠ j.status) then { j with status := s } else j
        | none => j
    | none => j
  else j

/-- `PostAnalyzer.check_batch_status` (lines 425-482): each selected job
row is conditionally updated by its own poll result and nothing else is
written, so the net store effect is a map over the job rows. -/
def checkBatchStatus (st : AnalyzerState) (batchGet : String → Except Unit BatchInfo) :
    AnalyzerState :=
  { st with jobs := st.jobs.map (pollJob batchGet) }

/-! Completer, `PostAnalyzer.process_completed_jobs` (post.py lines
536-666).  The provider interaction of lines 554-589 (fetch the batch,
find the result-file reference, download it and extract its text) is the
parameter `getContent`: `some content` is the downloaded text of the
job's result file, `none` covers both a missing result-file reference
(line 578-580, skip the job) and a raised provider call (caught at lines
663-664, also leaving the job's rows untouched). -/

/-- Python `str.splitlines` on the downloaded text, modelled on the LF
terminator (the only one the modelled result files contain). -/
def splitLinesCh : List Char → List (List Char)
  | [] => [[]]
  | c :: rest =>
    match splitLinesCh rest with
    | l :: ls => if c = '\n' then [] :: l :: ls else (c :: l) :: ls
    | [] => [[c]]

/-- Python `str.strip` of line 593 (whitespace only). -/
def trimCh (cs : List Char) : List Char :=
  (skipWs (skipWs cs).reverse).reverse

/-- The fallback operand `obj.get("request", \x7b\x7d).get("key")` of
line 601, evaluated when `obj.get("key")` is falsy: `.ok` is its value
(Python `None` as `none`), `.error` is the `AttributeError` raised when
the present `request` value is not a dict — an exception the line loop
does not catch, so it aborts the whole job (lines 663-664). -/
def reqKeyFallback (fields : JsonFields) : Except Unit (Option Json) :=
  match Json.lookup fields "request" with
  | none => .ok none
  | some (.obj rf) => .ok (Json.lookup rf "key")
  | some _ => .error ()

/-- Line 601: `req_key = obj.get("key") or obj.get("request", \x7b\x7d).get("key")`. -/
def extractReqKey (fields : JsonFields) : Except Unit (Option Json) :=
  match Json.lookup fields "key" with
  | some k => if k.truthy then .ok (some k) else reqKeyFallback fields
  | none => reqKeyFallback fields

/-- Lines 602-616: walk
`response.candidates[0].content.parts[0].text` under the inner
`try/except: pass` (any attribute/index error leaves `resp_text = None`),
then the error fallback `if not resp_text and "error" in obj: resp_text =
json.dumps(obj["error"])`.  `fuel` bounds the dump depth and exceeds the
nesting depth of any value parsed from the line. -/
def extractRespText (fields : JsonFields) (fuel : Nat) : Option String :=
  let fromResponse : Option String :=
    match Json.lookup fields "response" with
    | some (.obj (.cons k0 v0 tl0)) =>
      (match (match Json.lookup (.cons k0 v0 tl0) "candidates" with
              | some c => if c.truthy then c else .arr .nil
              | none => .arr .nil : Json) with
       | .arr (.cons (.obj cf) _) =>
         (match (Json.lookup cf "content").getD (.obj .nil) with
          | .obj conf =>
            (match (Json.lookup conf "parts").getD (.arr .nil) with
             | .arr (.cons (.obj pf) _) =>
               (match Json.lookup pf "text" with
                | some (.str t) => some t
                | _ => none)
             | _ => none)
          | _ => none)
       | _ => none)
    | _ => none
  match fromResponse with
  | some t =>
    if t = "" then
      (match Json.lookup fields "error" with
       | some e => some (dumpVal fuel e)
       | none => some "")
    else some t
  | none =>
    (match Json.lookup fields "error" with
     | some e => some (dumpVal fuel e)
     | none => none)

/-- The MongoDB `update_one(filter, \x7b"$set": ...\x7d, upsert=False)` of
lines 652-656: update the first document matching the filter; with
upsert disabled, no match writes nothing. -/
def updateFirstByLink : List PostDoc → String → (PostDoc → PostDoc) → List PostDoc
  | [], _, _ => []
  | p :: ps, lk, f =>
    if p.link = lk then f p :: ps else p :: updateFirstByLink ps lk f

/-- The Mongo write-back of lines 641-656: `$set` the `analysis` field to
the parsed dict and the `text` field to the request's stored post text
when `analysis_dict.get("drugs_related")` is the boolean `True`
(`isinstance(..., bool) and ...`), to null otherwise, addressing the
post by `link` with `upsert=False`. -/
def writeBack (posts : List PostDoc) (row : GeminiRequest) (d : JsonFields) : List PostDoc :=
  let textVal : Option String :=
    match Json.lookup d "drugs_related" with
    | some (.bool true) => some row.post_text
    | _ => none
  updateFirstByLink posts row.post_link (fun p =>
    { p with analysis := some (.obj d), text := textVal })

/-- Lines 631-659: parse `resp_text` as JSON; when (and only when) the
result is a truthy (non-empty) dict, write it back onto the post — with
no validation of its keys.  Any other parse outcome skips the Mongo
write. -/
def applyAnalysis (posts : List PostDoc) (row : GeminiRequest) (respText : String) :
    List PostDoc :=
  match jsonLoads respText with
  | some (.obj (.cons k v tl)) => writeBack posts row (.cons k v tl)
  | _ => posts

/-- One iteration of the line loop (lines 592-659).  `none` models an
exception the loop does not catch (a non-dict line at the `obj.get` of
line 601, a non-dict `request` value, or `scalar_one_or_none` finding
several rows), which aborts the remaining lines of the job; `some`
returns the updated request rows, the updated posts and the
`processed["requests"]` increment (0 for a skipped line). -/
def processLine (reqs : List GeminiRequest) (posts : List PostDoc) (line : List Char) :
    Option (List GeminiRequest × List PostDoc × Nat) :=
  let t := trimCh line
  if t.isEmpty then some (reqs, posts, 0)
  else
    match jsonLoadsCh t with
    | none => some (reqs, posts, 0)
    | some (.obj fields) =>
      (match extractReqKey fields with
       | .error _ => none
       | .ok keyVal =>
         match extractRespText fields (line.length + 2) with
         | none => some (reqs, posts, 0)
         | some tx =>
           match (match keyVal with
                  | some (.str s) => some s
                  | _ => none : Option String) with
           | none => some (reqs, posts, 0)
           | some s =>
             match reqs.filter (fun r => decide (r.request_key = s)) with
             | [] => some (reqs, posts, 0)
             | [row] =>
               some (reqs.map (fun r =>
                       if r.request_key = s then
                         { r with result := some tx, is_processed := true }
                       else r),
                     applyAnalysis posts row tx, 1)
             | _ => none)
    | some _ => none

/-- The line loop over one result file; the final flag is false when an
uncaught exception aborted the job (its `processed["jobs"]` increment at
line 661 is then skipped, but the rows already written stay written,
since the final `session.commit()` of line 665 still runs). -/
def processLines : List (List Char) → List GeminiRequest → List PostDoc →
    List GeminiRequest × List PostDoc × Nat × Bool
  | [], reqs, posts => (reqs, posts, 0, true)
  | l :: ls, reqs, posts =>
    match processLine reqs posts l with
    | none => (reqs, posts, 0, false)
    | some (r1, p1, k) =>
      let rest := processLines ls r1 p1
      (rest.1, rest.2.1, k + rest.2.2.1, rest.2.2.2)

/-- One iteration of the job loop (lines 552-664), threading the request
rows, the posts and the two `processed` counters. -/
def processJobStep (getContent : String → Option String)
    (acc : List GeminiRequest × List PostDoc × Nat × Nat) (j : BatchJob) :
    List GeminiRequest × List PostDoc × Nat × Nat :=
  match j.name with
  | none => acc
  | some nm =>
    match getContent nm with
    | none => acc
    | some content =>
      let r := processLines (splitLinesCh content.data) acc.1 acc.2.1
      (r.1, r.2.1, acc.2.2.1 + r.2.2.1, acc.2.2.2 + (if r.2.2.2 then 1 else 0))

/-- `PostAnalyzer.process_completed_jobs` (lines 536-666): select the
jobs with `status == COMPLETED` and a non-null provider name, run the
job loop, and return the `processed` statistics `(jobs, requests)` with
the successor state.  No job row is ever written. -/
def processCompletedJobs (st : AnalyzerState) (getContent : String → Option String) :
    (Nat × Nat) × AnalyzerState :=
  let selected := st.jobs.filter (fun j => decide (j.status = .completed) && j.name.isSome)
  let r := selected.foldl (processJobStep getContent) (st.requests, st.posts, 0, 0)
  ((r.2.2.2, r.2.2.1), { st with requests := r.1, posts := r.2.1 })

/-! Scheduler tick, `poll_gemini_batches_task`
(`src/tasks/pipeline/poll_gemini.py` lines 14-34).  The tick awaits four
analyzer methods in order and then the fan-out `invoke_telegram_task`.
Python resolves each method name on the `PostAnalyzer` instance at call
time: a name the class does not define raises `AttributeError`, which
propagates out of the task, so every stage after it (the fan-out
included) is unreached. -/

/-- The method names `class PostAnalyzer` defines
(post.py lines 117-666). -/
def postAnalyzerMethods : List String :=
  ["__init__", "__aenter__", "__aexit__", "_ensure_accepting_requests_job",
   "format", "_estimate_request_size", "_get_accepting_requests_job",
   "is_accepting_requests", "register", "submit_batch", "check_batch_status",
   "get_job_statistics", "reset_batch", "process_completed_jobs"]

/-- The analyzer method names the tick awaits, in call order
(poll_gemini.py lines 19-25). -/
def tickStageCalls : List String :=
  ["flip_idle_accepting_job_to_pending", "submit_batch", "check_batch_status",
   "complete_jobs"]

/-- Run attribute lookups in order: the trace of stages that executed,
and the name whose lookup raised `AttributeError` (aborting the rest),
if any. -/
def runStages : List String → List String → List String × Option String
  | [], _ => ([], none)
  | c :: cs, ms =>
    if ms.contains c then
      let r := runStages cs ms
      (c :: r.1, r.2)
    else ([], some c)

/-- One tick of `poll_gemini_batches_task` as its stage trace. -/
def pollGeminiTick : List String × Option String :=
  runStages tickStageCalls postAnalyzerMethods

/-! Concrete stores, posts and providers used by the witnesses and
counterexamples below. -/

def postA : PostIn := { title := "t", text := some "x", link := "L" }

def stEmptyJobs : AnalyzerState :=
  { jobs := [], requests := [], posts := [], nextJobId := 0 }

def stOneAccepting : AnalyzerState :=
  { jobs := [{ id := 0, name := none, status := .acceptingRequests,
               file_size_bytes := 0, request_count := 0 }],
    requests := [], posts := [], nextJobId := 1 }

/-- A store whose only job is ACCEPTING_REQUESTS with a few bytes
accumulated and `request_count = 0`. -/
def jobRoll : BatchJob :=
  { id := 0, name := none, status := .acceptingRequests,
    file_size_bytes := 3, request_count := 0 }

def stRollover : AnalyzerState :=
  { jobs := [jobRoll], requests := [], posts := [], nextJobId := 1 }

def reqA : GeminiRequest :=
  { request_key := "request-t:x", batch_job_id := 0, post_title := "t",
    post_text := "x", post_link := "L", estimated_size_bytes := 5,
    is_processed := false, result := none }

def jobAcc : BatchJob :=
  { id := 0, name := none, status := .acceptingRequests,
    file_size_bytes := 5, request_count := 1 }

/-- A store whose only job is ACCEPTING_REQUESTS and holds one
unprocessed request. -/
def stAcceptingWithReq : AnalyzerState :=
  { jobs := [jobAcc], requests := [reqA], posts := [], nextJobId := 1 }

/-- A provider whose upload and batch creation always succeed. -/
def providerOk : Nat → Option String := fun i => some ("batches/" ++ toString i)

def jobSub : BatchJob :=
  { id := 0, name := some "batches/0", status := .submitted,
    file_size_bytes := 5, request_count := 1 }

def stSubmittedJob : AnalyzerState :=
  { jobs := [jobSub], requests := [reqA], posts := [], nextJobId := 1 }

/-- A provider that reports state EXPIRED for every batch. -/
def batchGetExpired : String → Except Unit BatchInfo :=
  fun _ => .ok { state := some "EXPIRED" }

/-- A provider whose per-handle fetch raises (handle not found). -/
def batchGetMissing : String → Except Unit BatchInfo :=
  fun _ => .error ()

def jobDone : BatchJob :=
  { id := 0, name := some "batches/0", status := .completed,
    file_size_bytes := 5, request_count := 1 }

def reqK1 : GeminiRequest :=
  { request_key := "k1", batch_job_id := 0, post_title := "T1",
    post_text := "body1", post_link := "L1", estimated_size_bytes := 5,
    is_processed := false, result := none }

def reqK2 : GeminiRequest :=
  { request_key := "k2", batch_job_id := 0, post_title := "T2",
    post_text := "body2", post_link := "L2", estimated_size_bytes := 5,
    is_processed := false, result := none }

def postL1 : PostDoc := { link := "L1", text := some "orig1", analysis := none }

def postL2 : PostDoc := { link := "L2", text := some "orig2", analysis := none }

/-- A result line whose payload is a schema-conforming analysis for
request `k1`. -/
def lineGood : String :=
  "\x7b\"key\": \"k1\", \"response\": \x7b\"candidates\": [\x7b\"content\": " ++
  "\x7b\"parts\": [\x7b\"text\": \"\x7b\\\"drugs_related\\\": true, " ++
  "\\\"promotions\\\": []\x7d\"\x7d]\x7d\x7d]\x7d\x7d"

/-- A result line for `k1` whose payload lacks both required schema
keys. -/
def lineFoo : String :=
  "\x7b\"key\": \"k1\", \"response\": \x7b\"candidates\": [\x7b\"content\": " ++
  "\x7b\"parts\": [\x7b\"text\": \"\x7b\\\"foo\\\": 1\x7d\"\x7d]\x7d\x7d]\x7d\x7d"

/-- A result line for `k2` carrying only a provider error object. -/
def lineErr : String :=
  "\x7b\"key\": \"k2\", \"error\": \x7b\"code\": 400\x7d\x7d"

def stCompletedC2 : AnalyzerState :=
  { jobs := [jobDone], requests := [reqK1], posts := [postL1], nextJobId := 1 }

def contentC2 : String → Option String := fun _ => some lineGood

def stCompletedC8 : AnalyzerState :=
  { jobs := [jobDone], requests := [reqK1, reqK2], posts := [postL1, postL2],
    nextJobId := 1 }

def contentC8 : String → Option String := fun _ => some (lineFoo ++ "\n" ++ lineErr)

/-! Shared helper lemmas. -/

theorem mem_updateJobsById {jobs : List BatchJob} {i : Nat} {f : BatchJob → BatchJob}
    {j : BatchJob} (h : j ∈ updateJobsById jobs i f) :
    ∃ k ∈ jobs, j = f k ∨ j = k := by
  unfold updateJobsById at h
  obtain ⟨k, hk, he⟩ := List.mem_map.mp h
  refine ⟨k, hk, ?_⟩
  split at he
  · exact Or.inl he.symm
  · exact Or.inr he.symm

theorem updateJobsById_notmem {jobs : List BatchJob} {i : Nat}
    {f : BatchJob → BatchJob} (h : ∀ j ∈ jobs, j.id ≠ i) :
    updateJobsById jobs i f = jobs := by
  unfold updateJobsById
  induction jobs with
  | nil => rfl
  | cons a l ih =>
    simp only [List.map_cons, List.mem_cons] at *
    rw [if_neg (h a (Or.inl rfl)), ih (fun j hj => h j (Or.inr hj))]

theorem updateFirstByLink_no_match {posts : List PostDoc} {lk : String}
    {f : PostDoc → PostDoc} (h : ∀ p ∈ posts, p.link ≠ lk) :
    updateFirstByLink posts lk f = posts := by
  induction posts with
  | nil => rfl
  | cons p ps ih =>
    unfold updateFirstByLink
    rw [if_neg (h p (List.mem_cons_self p ps))]
    rw [ih (fun q hq => h q (List.mem_cons_of_mem p hq))]

theorem accepting_any_of_filter_single {st : AnalyzerState} {current : BatchJob}
    (heq : st.jobs.filter isAccepting = [current]) :
    st.jobs.any isAccepting = true := by
  have hcur : current ∈ st.jobs.filter isAccepting := by
    rw [heq]; exact List.mem_singleton.mpr rfl
  exact List.any_eq_true.mpr
    ⟨current, List.mem_of_mem_filter hcur, (List.mem_filter.mp hcur).2⟩

/-! Claim C1 (size-cap invariant).  The cap check of post.py line 258 is
a read-then-branch, not part of an update filter: when a single
`estimated_size` exceeds `MAX_FILE_SIZE_BYTES` the rollover registers it
into the fresh job anyway, whose `file_size_bytes` then exceeds the cap.
The invariant does hold whenever every single estimate is at most the
cap. -/

/-- C1, counterexample: registering one item with
`estimated_size = MAX_FILE_SIZE_BYTES + 1` into a store whose only job
is an empty ACCEPTING_REQUESTS job leaves a job whose `file_size_bytes`
exceeds `MAX_FILE_SIZE_BYTES`, so the claimed invariant fails for a
sequence containing one oversized estimate. -/
theorem register_oversize_breaks_cap :
    ((register stOneAccepting postA (MAX_FILE_SIZE_BYTES + 1)).2.jobs.map
      (fun j => j.file_size_bytes)) = [0, MAX_FILE_SIZE_BYTES + 1] ∧
    MAX_FILE_SIZE_BYTES < MAX_FILE_SIZE_BYTES + 1 :=
  ⟨rfl, Nat.lt_succ_self _⟩

/-- C1, amended: if every job of the store satisfies the cap and the
registered `estimated_size` is itself at most `MAX_FILE_SIZE_BYTES`,
then after `register` every job still satisfies
`file_size_bytes ≤ MAX_FILE_SIZE_BYTES`. -/
theorem register_preserves_size_cap (st : AnalyzerState) (post : PostIn) (sz : Nat)
    (hsz : sz ≤ MAX_FILE_SIZE_BYTES)
    (hst : ∀ j ∈ st.jobs, j.file_size_bytes ≤ MAX_FILE_SIZE_BYTES) :
    ∀ j ∈ (register st post sz).2.jobs, j.file_size_bytes ≤ MAX_FILE_SIZE_BYTES := by
  intro j hj
  simp only [register] at hj
  split at hj
  · split at hj
    · exact hst j hj
    · split at hj
      case h_1 current heq =>
        simp only at hj
        by_cases hcap : MAX_FILE_SIZE_BYTES < current.file_size_bytes + sz
        · rw [if_pos hcap] at hj
          simp only at hj
          obtain ⟨k, hk, hor⟩ := mem_updateJobsById hj
          rcases List.mem_append.mp hk with hk1 | hk2
          · obtain ⟨k0, hk0, hor0⟩ := mem_updateJobsById hk1
            have hk0le := hst k0 hk0
            rcases hor with hbump | hkeep
            · subst hbump; simp; omega
            · subst hkeep
              rcases hor0 with hflip | hsame
              · subst hflip; simpa using hk0le
              · subst hsame; exact hk0le
          · have hkf := List.mem_singleton.mp hk2
            rcases hor with hbump | hkeep
            · subst hbump; subst hkf; simp; omega
            · subst hkeep; subst hkf; simp
        · rw [if_neg hcap] at hj
          simp only at hj
          obtain ⟨k, hk, hor⟩ := mem_updateJobsById hj
          rcases hor with hbump | hkeep
          · subst hbump; simp; omega
          · subst hkeep; exact hst _ hk
      case h_2 => exact hst j hj
  · exact hst j hj

/-- C1, witness: the amended theorem applied to the concrete
single-accepting store and a 5-byte estimate. -/
theorem register_preserves_size_cap_witness :
    (5 ≤ MAX_FILE_SIZE_BYTES ∧
      ∀ j ∈ stOneAccepting.jobs, j.file_size_bytes ≤ MAX_FILE_SIZE_BYTES) ∧
    ∀ j ∈ (register stOneAccepting postA 5).2.jobs,
      j.file_size_bytes ≤ MAX_FILE_SIZE_BYTES :=
  ⟨⟨by decide, by decide⟩,
   register_preserves_size_cap stOneAccepting postA 5 (by decide) (by decide)⟩

/-! Claim C3 (duplicate registration).  The already-registered branch of
post.py line 248 returns `True`, not `False`: the second call returns
true again (and touches no counter). -/

/-- Helper: a call of `register` that returned true leaves a store in
which an ACCEPTING_REQUESTS job exists and a request with the post's
key exists. -/
theorem register_true_facts (st : AnalyzerState) (post : PostIn) (sz : Nat)
    (h : (register st post sz).1 = true) :
    (register st post sz).2.jobs.any isAccepting = true ∧
    (register st post sz).2.requests.any
      (fun r => decide (r.request_key = requestKey post)) = true := by
  simp only [register] at h ⊢
  split at h
  case isTrue hacc =>
    split at h
    case isTrue hdup =>
      rw [if_pos hacc, if_pos hdup]
      exact ⟨hacc, hdup⟩
    case isFalse hdup =>
      split at h
      case h_1 current heq =>
        rw [if_pos hacc, if_neg hdup]
        simp only [heq]
        have hcurf : current ∈ st.jobs.filter isAccepting := by
          rw [heq]; exact List.mem_singleton.mpr rfl
        have hcurmem := List.mem_of_mem_filter hcurf
        have hcurpred := (List.mem_filter.mp hcurf).2
        by_cases hcap : MAX_FILE_SIZE_BYTES < current.file_size_bytes + sz
        · rw [if_pos hcap]
          constructor
          · refine List.any_eq_true.mpr ⟨?_, ?_, ?_⟩
            · exact { id := st.nextJobId, name := none, status := JobStatus.acceptingRequests, file_size_bytes := 0 + sz, request_count := 0 + 1 }
            · simp only [updateJobsById]
              refine List.mem_map.mpr ⟨?_, ?_, ?_⟩
              · exact { id := st.nextJobId, name := none, status := JobStatus.acceptingRequests, file_size_bytes := 0, request_count := 0 }
              · exact List.mem_append_right _ (List.mem_singleton.mpr rfl)
              · simp
            · simp [isAccepting]
          · simp
        · rw [if_neg hcap]
          constructor
          · refine List.any_eq_true.mpr ⟨?_, ?_, ?_⟩
            · exact { current with file_size_bytes := current.file_size_bytes + sz, request_count := current.request_count + 1 }
            · simp only [updateJobsById]
              exact List.mem_map.mpr ⟨current, hcurmem, by simp⟩
            · simpa [isAccepting] using hcurpred
          · simp
      case h_2 => simp at h
  case isFalse hacc => simp at h

/-- C3, counterexample: a second `register` call for the same post (the
call that hits the already-registered branch) returns true, not false;
the counters are nonetheless incremented only once across the two
calls. -/
theorem register_duplicate_returns_true_twice :
    (register stOneAccepting postA 5).1 = true ∧
    (register (register stOneAccepting postA 5).2 postA 5).1 = true ∧
    ((register (register stOneAccepting postA 5).2 postA 5).2.jobs.map
      (fun j => (j.file_size_bytes, j.request_count))) = [(5, 1)] :=
  ⟨rfl, rfl, rfl⟩

/-- C3, amended: when a first `register` call for a post returned true,
a second call for the same post (with any size estimate) returns true
again and leaves the store — counters included — exactly as the first
call left it. -/
theorem register_second_call_true_and_no_increment (st : AnalyzerState)
    (post : PostIn) (sz sz2 : Nat) (h : (register st post sz).1 = true) :
    register (register st post sz).2 post sz2 = (true, (register st post sz).2) := by
  obtain ⟨hacc, hkey⟩ := register_true_facts st post sz h
  conv_lhs => rw [register]
  rw [if_pos hacc, if_pos hkey]

/-- C3, witness: the amended theorem applied to the concrete
single-accepting store. -/
theorem register_second_call_witness :
    register (register stOneAccepting postA 5).2 postA 5 =
      (true, (register stOneAccepting postA 5).2) :=
  register_second_call_true_and_no_increment stOneAccepting postA 5 5 rfl

/-! Claim C7 (rollover on no match).  The guard of post.py lines 231-232
returns false outright when no ACCEPTING_REQUESTS job exists — it never
creates one; and the rollover of lines 258-276 flips the current job to
PENDING with no `item_count > 0` condition, in a single pass rather than
a loop. -/

/-- C7, counterexample: with no ACCEPTING_REQUESTS job in the store,
`register` returns false and registers nothing, contradicting the
claimed "never returns false merely because no ACCEPTING Job exists". -/
theorem register_no_accepting_returns_false :
    register stEmptyJobs postA 5 = (false, stEmptyJobs) ∧
    stEmptyJobs.jobs.any isAccepting = false :=
  ⟨rfl, rfl⟩

/-- C7, amended: when no ACCEPTING_REQUESTS job exists, `register`
returns false immediately with the store unchanged; when exactly one
exists, the post is new, and the cap would be exceeded, `register` flips
that job to PENDING unconditionally (even with `request_count = 0`),
creates a fresh zero-counter ACCEPTING_REQUESTS job, and registers the
post into the fresh job, in one pass. -/
theorem register_rollover_behavior (st : AnalyzerState) (post : PostIn) (sz : Nat) :
    (st.jobs.any isAccepting = false → register st post sz = (false, st)) ∧
    (∀ current, st.jobs.filter isAccepting = [current] →
      st.requests.any (fun r => decide (r.request_key = requestKey post)) = false →
      MAX_FILE_SIZE_BYTES < current.file_size_bytes + sz →
      (∀ k ∈ st.jobs, k.id ≠ st.nextJobId) →
      register st post sz =
        (true,
         { st with
            jobs := updateJobsById st.jobs current.id
                (fun j => { j with status := .pending }) ++
              [{ id := st.nextJobId, name := none, status := .acceptingRequests, file_size_bytes := sz, request_count := 1 }],
            requests := st.requests ++
              [{ request_key := requestKey post, batch_job_id := st.nextJobId, post_title := post.title, post_text := post.text.getD "", post_link := post.link, estimated_size_bytes := sz, is_processed := false, result := none }],
            nextJobId := st.nextJobId + 1 })) := by
  constructor
  · intro hacc
    simp only [register]
    rw [if_neg (by simp [hacc])]
  · intro current heq hdup hcap hids
    have hacc := accepting_any_of_filter_single heq
    have hmain :
        updateJobsById
            (updateJobsById st.jobs current.id (fun j => { j with status := JobStatus.pending }) ++
              [{ id := st.nextJobId, name := none, status := JobStatus.acceptingRequests, file_size_bytes := 0, request_count := 0 }])
            st.nextJobId
            (fun j => { j with file_size_bytes := sz, request_count := 1 }) =
          updateJobsById st.jobs current.id (fun j => { j with status := JobStatus.pending }) ++
            [{ id := st.nextJobId, name := none, status := JobStatus.acceptingRequests, file_size_bytes := sz, request_count := 1 }] := by
      unfold updateJobsById
      rw [List.map_append]
      congr 1
      · conv_rhs => rw [← List.map_id (st.jobs.map
          (fun j => if j.id = current.id then { j with status := JobStatus.pending } else j))]
        apply List.map_congr_left
        intro a ha
        obtain ⟨k0, hk0, hae⟩ := List.mem_map.mp ha
        have hkid : a.id = k0.id := by rw [← hae]; split <;> rfl
        rw [if_neg (by rw [hkid]; exact hids k0 hk0)]
        rfl
      · simp
    simp only [register]
    rw [if_pos hacc, if_neg (by simp [hdup])]
    simp only [heq]
    rw [if_pos hcap]
    simp [hmain]

/-- C7, witness: the amended theorem applied to the empty store (first
part) and to a store whose single ACCEPTING_REQUESTS job has 3 bytes,
`request_count = 0`, and receives a cap-sized estimate (second part). -/
theorem register_rollover_behavior_witness :
    register stEmptyJobs postA 7 = (false, stEmptyJobs) ∧
    register stRollover postA MAX_FILE_SIZE_BYTES =
      (true,
       { stRollover with
          jobs := updateJobsById stRollover.jobs jobRoll.id
              (fun j => { j with status := .pending }) ++
            [{ id := stRollover.nextJobId, name := none, status := .acceptingRequests, file_size_bytes := MAX_FILE_SIZE_BYTES, request_count := 1 }],
          requests := stRollover.requests ++
            [{ request_key := requestKey postA, batch_job_id := stRollover.nextJobId, post_title := postA.title, post_text := postA.text.getD "", post_link := postA.link, estimated_size_bytes := MAX_FILE_SIZE_BYTES, is_processed := false, result := none }],
          nextJobId := stRollover.nextJobId + 1 }) :=
  ⟨(register_rollover_behavior stEmptyJobs postA 7).1 rfl,
   (register_rollover_behavior stRollover postA MAX_FILE_SIZE_BYTES).2 jobRoll rfl rfl
     (by decide) (by decide)⟩

/-! Claim C4 (submitter scope).  The select of post.py lines 321-333
takes status in (ACCEPTING_REQUESTS, PENDING) with `request_count > 0`:
an ACCEPTING_REQUESTS job with requests is uploaded and flipped to
SUBMITTED, contrary to the claim. -/

/-- C4, counterexample: submitting a store whose only job is
ACCEPTING_REQUESTS with one unprocessed request transitions that job to
SUBMITTED (and the ensure step then creates a fresh ACCEPTING_REQUESTS
job), so a Job whose status is ACCEPTING is uploaded and transitioned by
the submit operation. -/
theorem submit_includes_accepting_job :
    ((submitBatch stAcceptingWithReq providerOk).2.jobs.map
      (fun j => (j.id, j.status))) = [(0, .submitted), (1, .acceptingRequests)] ∧
    stAcceptingWithReq.jobs.map (fun j => j.status) = [.acceptingRequests] ∧
    (submitBatch stAcceptingWithReq providerOk).1 = some ["batches/0"] :=
  ⟨rfl, rfl, rfl⟩

/-- C4, amended: the submit operation materialises and submits exactly
the jobs with status ACCEPTING_REQUESTS or PENDING, `request_count > 0`
and at least one unprocessed request; such a job becomes SUBMITTED with
the provider name on provider success and FAILED on provider error;
every other job row is untouched by the loop; when at least one job is
selected, `_ensure_accepting_requests_job` runs afterwards, and when
none is, the store is returned unchanged. -/
theorem submit_scope_characterization (st : AnalyzerState)
    (provider : Nat → Option String) :
    (∀ j ∈ st.jobs, submitSelect j = false → submitJob st.requests provider j = j) ∧
    (∀ j ∈ st.jobs, ∀ nm, submitSelect j = true →
      (unprocessedOf st.requests j.id).isEmpty = false →
      provider j.id = some nm →
      submitJob st.requests provider j = { j with status := .submitted, name := some nm }) ∧
    (∀ j ∈ st.jobs, submitSelect j = true →
      (unprocessedOf st.requests j.id).isEmpty = false →
      provider j.id = none →
      submitJob st.requests provider j = { j with status := .failed }) ∧
    ((st.jobs.filter submitSelect).isEmpty = true → submitBatch st provider = (none, st)) ∧
    ((st.jobs.filter submitSelect).isEmpty = false →
      (submitBatch st provider).2 =
        ensureAcceptingJob { st with jobs := st.jobs.map (submitJob st.requests provider) }) := by
  refine ⟨?_, ?_, ?_, ?_, ?_⟩
  · intro j _ hsel
    simp [submitJob, hsel]
  · intro j _ nm hsel hne hprov
    simp [submitJob, hsel, hne, hprov]
  · intro j _ hsel hne hprov
    simp [submitJob, hsel, hne, hprov]
  · intro h
    simp [submitBatch, h]
  · intro h
    simp [submitBatch, h]

/-- C4, witness: the amended theorem applied to the concrete store whose
only job is ACCEPTING_REQUESTS with one unprocessed request, and the
always-succeeding provider. -/
theorem submit_scope_characterization_witness :
    submitJob stAcceptingWithReq.requests providerOk jobAcc =
      { jobAcc with status := .submitted, name := some "batches/0" } ∧
    (submitBatch stAcceptingWithReq providerOk).2 =
      ensureAcceptingJob { stAcceptingWithReq with
        jobs := stAcceptingWithReq.jobs.map (submitJob stAcceptingWithReq.requests providerOk) } :=
  ⟨(submit_scope_characterization stAcceptingWithReq providerOk).2.1 jobAcc
      (List.mem_singleton.mpr rfl) "batches/0" rfl rfl rfl,
   (submit_scope_characterization stAcceptingWithReq providerOk).2.2.2.2 rfl⟩

/-! Claim C6 (poller state mapping).  The mapping of post.py lines
451-457 recognises only "COMPLETED", "FAILED", "CANCELLED" and
"RUNNING": provider "EXPIRED" is NOT mapped to FAILED, "RUNNING" is
mapped to PROCESSING (a change), and "SUCCEEDED" is not recognised at
all.  Job statuses are the source's, where the spec's PROCESSED
corresponds to the code's COMPLETED. -/

/-- C6, counterexample: a SUBMITTED job whose provider state reads
EXPIRED keeps status SUBMITTED — it is not transitioned to FAILED as
the claim requires. -/
theorem poll_expired_leaves_submitted :
    ((checkBatchStatus stSubmittedJob batchGetExpired).jobs.map
      (fun j => j.status)) = [.submitted] ∧
    JobStatus.submitted ≠ JobStatus.failed :=
  ⟨rfl, by decide⟩

/-- C6, amended: for a SUBMITTED job with a provider handle, a poll that
reads provider state COMPLETED transitions the job to COMPLETED; FAILED
and CANCELLED transition it to FAILED; RUNNING transitions it to
PROCESSING; a missing state attribute and every other state string —
SUCCEEDED, EXPIRED and PENDING included — leave the status unchanged. -/
theorem poll_state_mapping (st : AnalyzerState)
    (bg : String → Except Unit BatchInfo) (j : BatchJob) (nm : String)
    (hs : j.status = .submitted) (hn : j.name = some nm) :
    (checkBatchStatus st bg).jobs = st.jobs.map (pollJob bg) ∧
    ∀ info, bg nm = .ok info →
      ((info.state = some "COMPLETED" → pollJob bg j = { j with status := .completed }) ∧
       ((info.state = some "FAILED" ∨ info.state = some "CANCELLED") →
         pollJob bg j = { j with status := .failed }) ∧
       (info.state = some "RUNNING" → pollJob bg j = { j with status := .processing }) ∧
       (info.state = none → pollJob bg j = j) ∧
       (∀ s, info.state = some s →
         s ∉ (["COMPLETED", "FAILED", "CANCELLED", "RUNNING"] : List String) →
         pollJob bg j = j)) := by
  refine ⟨rfl, ?_⟩
  intro info hbg
  refine ⟨?_, ?_, ?_, ?_, ?_⟩
  · intro hstate
    simp [pollJob, hs, hn, hbg, pollNewStatus, hstate]
  · rintro (hstate | hstate) <;> simp [pollJob, hs, hn, hbg, pollNewStatus, hstate]
  · intro hstate
    simp [pollJob, hs, hn, hbg, pollNewStatus, hstate]
  · intro hstate
    simp [pollJob, hs, hn, hbg, pollNewStatus, hstate]
  · intro s hstate hnot
    simp only [List.mem_cons, List.not_mem_nil, or_false, not_or] at hnot
    obtain ⟨h1, h2, h3, h4⟩ := hnot
    simp [pollJob, hs, hn, hbg, pollNewStatus, hstate, h1, h2, h3, h4]

/-- C6, witness: the mapping theorem applied to the concrete SUBMITTED
store polled against a provider reporting EXPIRED. -/
theorem poll_state_mapping_witness :
    pollJob batchGetExpired jobSub = jobSub :=
  ((poll_state_mapping stSubmittedJob batchGetExpired jobSub "batches/0" rfl rfl).2
    { state := some "EXPIRED" } rfl).2.2.2.2 "EXPIRED" rfl (by decide)

/-! Claim C9 (missing provider record).  The per-job `try` of post.py
lines 447-475 catches a raised `batches.get` and writes nothing, and an
unusable fetch result (no `state` attribute) maps to no change, so a
SUBMITTED job stays SUBMITTED. -/

/-- C9, confirmed: a SUBMITTED job with a provider handle whose
per-handle fetch raises, or returns an object with no usable state, is
left untouched by the poll — in particular it is never transitioned to
FAILED and is still present, unchanged, after `check_batch_status`. -/
theorem poll_unusable_fetch_keeps_submitted (st : AnalyzerState)
    (bg : String → Except Unit BatchInfo) (j : BatchJob) (nm : String)
    (hj : j ∈ st.jobs) (hs : j.status = .submitted) (hn : j.name = some nm)
    (hbg : bg nm = .error () ∨ bg nm = .ok { state := none }) :
    pollJob bg j = j ∧ j ∈ (checkBatchStatus st bg).jobs := by
  have hpoll : pollJob bg j = j := by
    rcases hbg with h | h <;> simp [pollJob, hs, hn, h, pollNewStatus]
  refine ⟨hpoll, ?_⟩
  simp only [checkBatchStatus]
  exact List.mem_map.mpr ⟨j, hj, hpoll⟩

/-- C9, witness: the theorem applied to the concrete SUBMITTED store
and the provider whose fetch raises. -/
theorem poll_unusable_fetch_witness :
    pollJob batchGetMissing jobSub = jobSub ∧
    jobSub ∈ (checkBatchStatus stSubmittedJob batchGetMissing).jobs :=
  poll_unusable_fetch_keeps_submitted stSubmittedJob batchGetMissing jobSub "batches/0"
    (List.mem_singleton.mpr rfl) rfl rfl (Or.inl rfl)

/-! Claim C2 (exactly-once result application).  The select of post.py
lines 540-544 takes jobs whose status is already COMPLETED, and the
function never writes a job status: there is no PROCESSED → COMPLETED
flip at the end of the line loop, so the same job is selected and its
line loop re-runs on every later tick (an at-least-once, idempotent
re-application, not exactly-once). -/

set_option maxRecDepth 40000 in
/-- C2, counterexample: a COMPLETED job with one valid result line is
fully processed by one `process_completed_jobs` call (statistics
`(jobs, requests) = (1, 1)`), its status is still COMPLETED afterwards,
and a second call runs the line loop again (statistics `(1, 1)` again,
not `(_, 0)`), contradicting the claimed flip-then-never-re-run. -/
theorem completer_reruns_line_loop :
    (processCompletedJobs stCompletedC2 contentC2).1 = (1, 1) ∧
    (processCompletedJobs (processCompletedJobs stCompletedC2 contentC2).2 contentC2).1 =
      (1, 1) ∧
    ((processCompletedJobs stCompletedC2 contentC2).2.jobs.map (fun j => j.status)) =
      [.completed] :=
  ⟨rfl, rfl, rfl⟩

/-- C2, amended: `process_completed_jobs` never writes any job row — the
job list (statuses included) is returned unchanged, so the set of jobs
its select matches is the same on the next tick and their line loops are
run again. -/
theorem completer_preserves_jobs (st : AnalyzerState)
    (getContent : String → Option String) :
    (processCompletedJobs st getContent).2.jobs = st.jobs ∧
    (processCompletedJobs st getContent).2.jobs.filter
        (fun j => decide (j.status = .completed) && j.name.isSome) =
      st.jobs.filter (fun j => decide (j.status = .completed) && j.name.isSome) :=
  ⟨rfl, rfl⟩

/-! Claim C8 (completer validation).  Lines 631-659 of post.py parse the
payload as JSON and store any truthy dict as the post's `analysis` —
there is no validation against the analysis schema, so a payload lacking
`drugs_related` and `promotions`, and even the error object dumped at
line 616, is stored. -/

set_option maxRecDepth 40000 in
/-- C8, counterexample: a result file whose first line's payload is the
schema-less object with key "foo" and whose second line carries only a
provider error object ends with both stored as `analysis` on the
matching posts (and both posts' `text` cleared), contradicting the
claimed parse-and-validate-or-skip. -/
theorem completer_stores_unvalidated_payload :
    (processCompletedJobs stCompletedC8 contentC8).2.posts =
      [{ link := "L1", text := none,
         analysis := some (.obj (.cons "foo" (.num 1) .nil)) },
       { link := "L2", text := none,
         analysis := some (.obj (.cons "code" (.num 400) .nil)) }] :=
  rfl

/-- C8, amended: the per-line payload is parsed as JSON; whenever the
parse yields a non-empty JSON object it is written back as the post's
analysis regardless of which keys it has (no schema validation), and
when the parse fails or yields a non-object or the empty object, the
posts are untouched. -/
theorem apply_analysis_no_schema_validation (posts : List PostDoc)
    (row : GeminiRequest) (tx : String) :
    (∀ k v tl, jsonLoads tx = some (.obj (.cons k v tl)) →
      applyAnalysis posts row tx = writeBack posts row (.cons k v tl)) ∧
    (jsonLoads tx = none → applyAnalysis posts row tx = posts) ∧
    (jsonLoads tx = some (.obj .nil) → applyAnalysis posts row tx = posts) := by
  refine ⟨?_, ?_, ?_⟩
  · intro k v tl h
    simp [applyAnalysis, h]
  · intro h
    simp [applyAnalysis, h]
  · intro h
    simp [applyAnalysis, h]

/-- C8, witness: the amended theorem applied to the schema-less payload
with single key "foo", which is stored as the analysis. -/
theorem apply_analysis_witness :
    applyAnalysis [postL1] reqK1 "\x7b\"foo\": 1\x7d" =
      writeBack [postL1] reqK1 (.cons "foo" (.num 1) .nil) :=
  (apply_analysis_no_schema_validation [postL1] reqK1 "\x7b\"foo\": 1\x7d").1
    "foo" (.num 1) .nil rfl

/-! Claim C10 (frame effect of the write-back).  Lines 641-656 of
post.py: the Mongo `$set` always carries a `text` field besides
`analysis` — the stored request's post text when the parsed payload's
`drugs_related` is the boolean true, null otherwise — and addresses the
post by `link` with `upsert=False`. -/

/-- C10, confirmed: the completer's write-back sets the matched post's
`analysis` to the parsed object and simultaneously overwrites its
`text` — to the stored request's post text when the payload has
`drugs_related = true`, to null for any other value or absence of that
key — updating the first post whose `link` equals the request's stored
link; when no post carries that link, nothing is written. -/
theorem writeback_text_and_link_addressing (posts : List PostDoc)
    (row : GeminiRequest) (d : JsonFields) :
    (Json.lookup d "drugs_related" = some (.bool true) →
      writeBack posts row d = updateFirstByLink posts row.post_link
        (fun p => { p with analysis := some (.obj d), text := some row.post_text })) ∧
    ((∀ v, Json.lookup d "drugs_related" = some v → v ≠ .bool true) →
      writeBack posts row d = updateFirstByLink posts row.post_link
        (fun p => { p with analysis := some (.obj d), text := none })) ∧
    ((∀ p ∈ posts, p.link ≠ row.post_link) → writeBack posts row d = posts) := by
  refine ⟨?_, ?_, ?_⟩
  · intro h
    simp [writeBack, h]
  · intro h
    unfold writeBack
    rcases hd : Json.lookup d "drugs_related" with _ | v
    · rfl
    · have hv := h v hd
      cases v with
      | bool b =>
        cases b with
        | true => exact absurd rfl hv
        | false => rfl
      | null => rfl
      | num n => rfl
      | str s => rfl
      | arr xs => rfl
      | obj kvs => rfl
  · intro h
    unfold writeBack
    exact updateFirstByLink_no_match h

/-- C10, witness: the theorem applied to a payload with
`drugs_related = true` and a post list carrying the matching link, and
to a post list with no matching link. -/
theorem writeback_witness :
    writeBack [postL1] reqK1 (.cons "drugs_related" (.bool true) .nil) =
      updateFirstByLink [postL1] reqK1.post_link
        (fun p => { p with
          analysis := some (.obj (.cons "drugs_related" (.bool true) .nil)),
          text := some reqK1.post_text }) ∧
    writeBack [postL2] reqK1 (.cons "drugs_related" (.bool true) .nil) = [postL2] :=
  ⟨(writeback_text_and_link_addressing [postL1] reqK1
      (.cons "drugs_related" (.bool true) .nil)).1 rfl,
   (writeback_text_and_link_addressing [postL2] reqK1
      (.cons "drugs_related" (.bool true) .nil)).2.2
     (by intro p hp; rw [List.mem_singleton.mp hp]; decide)⟩

/-! Claim C5 (scheduler tick order).  The tick of poll_gemini.py awaits
`flip_idle_accepting_job_to_pending` and `complete_jobs`, but `class
PostAnalyzer` defines neither method: the very first stage raises
`AttributeError`, aborting the tick before any stage (or the fan-out)
runs, every tick. -/

/-- C5, code bug: on every tick the first stage's attribute lookup
fails (`flip_idle_accepting_job_to_pending` is not a method of
PostAnalyzer), so the executed-stage trace is empty — no stage of the
claimed Idle Sweep → Submit → Poll → Complete → Fan-out sequence runs.
The fourth stage's name `complete_jobs` is likewise undefined. -/
theorem tick_aborts_on_missing_method :
    pollGeminiTick = ([], some "flip_idle_accepting_job_to_pending") ∧
    postAnalyzerMethods.contains "flip_idle_accepting_job_to_pending" = false ∧
    postAnalyzerMethods.contains "complete_jobs" = false ∧
    postAnalyzerMethods.contains "submit_batch" = true :=
  ⟨rfl, rfl, rfl, rfl⟩

end Retriever
